import Mathlib

/-!
Shallow embedding of the Smart Suspender background service worker
(`background.js`): settings store, whitelist matching, eligibility policy,
suspension engine (replace / navigate strategies), suspended-tab registry,
tab lifecycle hooks, and the dynamic single-alarm inactivity scheduler.

Modelling conventions:
* JS numbers that hold timestamps, minutes or millisecond delays are `Int`.
* JS objects keyed by tab id are association lists `List (Nat × α)`;
  key lookup, keyed overwrite and `delete` are `alistLookup`,
  `alistInsert`, `alistErase`.
* `chrome.*` calls are modelled by explicit state passing on a `Browser`
  value; host failures that the source reacts to (the replace strategy
  throwing, `chrome.tabs.update` throwing during restore) are boolean
  parameters of the corresponding operations.
* Optional fields of JS result objects (`already`, `ignored`, ...) are
  `Option` fields, `none` meaning the key is absent from the object.
-/

namespace SmartSuspender

-- ---------------------------------------------------------------------------
-- Association-list primitives for JS objects keyed by tab id
-- ---------------------------------------------------------------------------

def alistLookup {α : Type} (l : List (Nat × α)) (k : Nat) : Option α :=
  (l.find? (fun p => p.1 == k)).map Prod.snd

def alistErase {α : Type} (l : List (Nat × α)) (k : Nat) : List (Nat × α) :=
  l.filter (fun p => p.1 != k)

def alistInsert {α : Type} (l : List (Nat × α)) (k : Nat) (v : α) : List (Nat × α) :=
  (k, v) :: alistErase l k

-- ---------------------------------------------------------------------------
-- Settings store
-- ---------------------------------------------------------------------------

/-- In-memory settings object (`currentSettings`). `autoSuspendTime` is in
minutes. -/
structure Settings where
  autoSuspend : Bool
  autoSuspendTime : Int
  ignorePinned : Bool
  ignoreAudio : Bool
  ignoreActive : Bool
  urlWhitelist : String
deriving Repr, DecidableEq

def DEFAULT_SETTINGS : Settings :=
  { autoSuspend := true
    autoSuspendTime := 30
    ignorePinned := true
    ignoreAudio := true
    ignoreActive := true
    urlWhitelist := "" }

/-- A value found under `autoSuspendTime` in durable storage: either a JS
number or a value whose `typeof` is not `"number"`. -/
inductive StoredNum where
  | num (n : Int)
  | notNum
deriving Repr, DecidableEq

/-- The stored settings object: every field may be absent. -/
structure StoredSettings where
  autoSuspend : Option Bool
  autoSuspendTime : Option StoredNum
  ignorePinned : Option Bool
  ignoreAudio : Option Bool
  ignoreActive : Option Bool
  urlWhitelist : Option String
deriving Repr, DecidableEq

/-- `loadSettings`: spread-merge the stored object over `DEFAULT_SETTINGS`,
then replace `autoSuspendTime` by the default when the merged value is not a
number or is `<= 0`.  `stored = none` models a storage read that found no
settings entry. -/
def loadSettings (stored : Option StoredSettings) : Settings :=
  let s := stored.getD
    { autoSuspend := none, autoSuspendTime := none, ignorePinned := none,
      ignoreAudio := none, ignoreActive := none, urlWhitelist := none }
  let mergedTime : StoredNum :=
    s.autoSuspendTime.getD (StoredNum.num DEFAULT_SETTINGS.autoSuspendTime)
  { autoSuspend := s.autoSuspend.getD DEFAULT_SETTINGS.autoSuspend
    autoSuspendTime :=
      match mergedTime with
      | StoredNum.num n => if n ≤ 0 then DEFAULT_SETTINGS.autoSuspendTime else n
      | StoredNum.notNum => DEFAULT_SETTINGS.autoSuspendTime
    ignorePinned := s.ignorePinned.getD DEFAULT_SETTINGS.ignorePinned
    ignoreAudio := s.ignoreAudio.getD DEFAULT_SETTINGS.ignoreAudio
    ignoreActive := s.ignoreActive.getD DEFAULT_SETTINGS.ignoreActive
    urlWhitelist := s.urlWhitelist.getD DEFAULT_SETTINGS.urlWhitelist }

/-- The validity test `loadSettings` applies to the stored
`autoSuspendTime` field: present, a number, and positive. -/
def validStoredTime : Option StoredNum → Bool
  | some (StoredNum.num n) => decide (0 < n)
  | _ => false

/-- A partial settings object as passed to `saveSettings` (`newSettings`);
absent fields are `none`. -/
structure SettingsPartial where
  autoSuspend : Option Bool := none
  autoSuspendTime : Option Int := none
  ignorePinned : Option Bool := none
  ignoreAudio : Option Bool := none
  ignoreActive : Option Bool := none
  urlWhitelist : Option String := none
deriving Repr, DecidableEq

/-- The spread `{ ...currentSettings, ...newSettings }` of `saveSettings`. -/
def mergeNewSettings (cur : Settings) (p : SettingsPartial) : Settings :=
  { autoSuspend := p.autoSuspend.getD cur.autoSuspend
    autoSuspendTime := p.autoSuspendTime.getD cur.autoSuspendTime
    ignorePinned := p.ignorePinned.getD cur.ignorePinned
    ignoreAudio := p.ignoreAudio.getD cur.ignoreAudio
    ignoreActive := p.ignoreActive.getD cur.ignoreActive
    urlWhitelist := p.urlWhitelist.getD cur.urlWhitelist }

/-- In-memory settings plus the durable copy under `STORAGE_KEYS.SETTINGS`. -/
structure SettingsStore where
  currentSettings : Settings
  persistedSettings : Option Settings
deriving Repr, DecidableEq

/-- `saveSettings`: merge the partial update into `currentSettings` and write
the merged object to storage verbatim; returns `true` on success. -/
def saveSettings (st : SettingsStore) (p : SettingsPartial) : SettingsStore × Bool :=
  let merged := mergeNewSettings st.currentSettings p
  ({ currentSettings := merged, persistedSettings := some merged }, true)

/-- Reading the persisted settings object back as a stored object (what the
next `loadSettings` sees): every field present, `autoSuspendTime` a number. -/
def settingsToStored (s : Settings) : StoredSettings :=
  { autoSuspend := some s.autoSuspend
    autoSuspendTime := some (StoredNum.num s.autoSuspendTime)
    ignorePinned := some s.ignorePinned
    ignoreAudio := some s.ignoreAudio
    ignoreActive := some s.ignoreActive
    urlWhitelist := some s.urlWhitelist }

/-- `thresholdMs` as computed at the top of `runInactivityScan`:
`currentSettings.autoSuspendTime * 60 * 1000`. -/
def scanThresholdMs (s : Settings) : Int :=
  s.autoSuspendTime * 60 * 1000

-- ---------------------------------------------------------------------------
-- Whitelist matching
-- ---------------------------------------------------------------------------

/-- Splitting of `currentSettings.urlWhitelist` on the regex `\r?\n|,`,
character by character (`acc` holds the current entry reversed): a newline
consumes an immediately preceding carriage return from the current entry, so
`\r\n` and `\n` both separate while a lone `\r` stays in the entry, exactly
as the regex behaves. -/
def splitWhitelistRaw : List Char → List Char → List String
  | [], acc => [String.mk acc.reverse]
  | c :: rest, acc =>
    if c = '\n' then
      let acc2 := match acc with
        | '\r' :: a => a
        | a => a
      String.mk acc2.reverse :: splitWhitelistRaw rest []
    else if c = ',' then
      String.mk acc.reverse :: splitWhitelistRaw rest []
    else splitWhitelistRaw rest (c :: acc)

/-- JS `String.prototype.trim`: strip leading and trailing whitespace. -/
def jsTrim (s : String) : String :=
  String.mk
    (((s.toList.dropWhile Char.isWhitespace).reverse.dropWhile
        Char.isWhitespace).reverse)

/-- `whitelistEntries()`: split, trim each entry, drop empty entries. -/
def whitelistEntries (s : Settings) : List String :=
  ((splitWhitelistRaw s.urlWhitelist.toList []).map jsTrim).filter
    (fun e => e != "")

/-- JS regex line terminators; the `.` metacharacter never matches one. -/
def isLineTerminator (c : Char) : Bool :=
  c = '\n' || c = '\r' || c = Char.ofNat 0x2028 || c = Char.ofNat 0x2029

/-- Tokens of the regex the source compiles from a whitelist pattern.  The
source builds `^` ++ (pattern split on star, segments joined by dot-star)
++ `$` — but its escape step is a no-op: the escape call's own regex is
broken (the character class closes at the first unescaped right bracket, so
it only matches a three-character special, backslash, right-bracket
sequence), hence segment characters reach `new RegExp` raw and `.` stays a
live any-character metacharacter. -/
inductive RegexTok where
  | lit (c : Char)
  | anyChar
  | anySeq
deriving Repr, DecidableEq

/-- The characters (other than `.` and `*`, which are modelled) that the
broken escape leaves live as regex syntax: at such a character the compiled
regex means more than a literal (or `new RegExp` even throws a SyntaxError,
e.g. for an unmatched parenthesis).  Patterns containing one are outside the
fragment this model is faithful on, and no theorem appeals to the matcher at
such a pattern. -/
def regexSpecialChar (c : Char) : Bool :=
  c = '+' || c = '?' || c = '^' || c = '$' || c = Char.ofNat 0x7b ||
  c = Char.ofNat 0x7d || c = '(' || c = ')' || c = '|' || c = '[' ||
  c = ']' || c = '\\'

/-- Compilation of a whitelist pattern to the regex the source builds:
splitting on `*` and joining the raw segments with dot-star is the same as
replacing each `*` by a dot-star token; an unescaped `.` compiles to the
any-character token; every other character stands for itself (faithful for
characters outside `regexSpecialChar`). -/
def compilePattern : List Char → List RegexTok
  | [] => []
  | c :: rest =>
    (if c = '*' then RegexTok.anySeq
     else if c = '.' then RegexTok.anyChar
     else RegexTok.lit c) :: compilePattern rest

/-- The backtracking acceptance of one dot-star: the remainder matcher `m`
may start at any point reachable by skipping non-line-terminator
characters. -/
def globStar (m : List Char → Bool) : List Char → Bool
  | [] => m []
  | c :: s2 => m (c :: s2) || (!isLineTerminator c && globStar m s2)

/-- Anchored acceptance (`^tokens$`) of the compiled regex on a url. -/
def regexAccepts : List RegexTok → List Char → Bool
  | [], rest => rest.isEmpty
  | RegexTok.lit c :: ts, rest =>
    match rest with
    | [] => false
    | c2 :: s2 => c == c2 && regexAccepts ts s2
  | RegexTok.anyChar :: ts, rest =>
    match rest with
    | [] => false
    | c2 :: s2 => !isLineTerminator c2 && regexAccepts ts s2
  | RegexTok.anySeq :: ts, rest => globStar (regexAccepts ts) rest

/-- One pattern of the whitelist against a url: the source returns `true`
outright for the pattern `"*"`, otherwise tests the compiled regex. -/
def matchesPattern (pattern url : String) : Bool :=
  if pattern == "*" then true
  else regexAccepts (compilePattern pattern.toList) url.toList

/-- `isWhitelisted(url)`: some whitelist entry matches the url; an empty
whitelist matches nothing.  For a pattern with a live `regexSpecialChar`
the real `new RegExp` may throw (a SyntaxError that would propagate out of
`isWhitelisted`); that lies outside the modelled fragment, see
`regexSpecialChar`. -/
def isWhitelisted (s : Settings) (url : String) : Bool :=
  (whitelistEntries s).any (fun pat => matchesPattern pat url)

-- ---------------------------------------------------------------------------
-- Suspended page URL
-- ---------------------------------------------------------------------------

/-- `chrome.runtime.getURL("suspended.html")`: the extension-internal base
address of the placeholder page (a `chrome-extension://` URL). -/
def suspendedPageBaseUrl : String :=
  "chrome-extension://smart-suspender/suspended.html"

/-- JS `String.prototype.startsWith`. -/
def urlStartsWithB (url pre : String) : Bool :=
  pre.toList.isPrefixOf url.toList

/-- `getSuspendedUrl(originalUrl, title)`: the placeholder URL carrying the
original URL and (when non-empty) title as query parameters.  The
`URLSearchParams` percent-encoding of the parameter values is abstracted:
values are carried verbatim, which preserves everything the claims observe
(the `suspended.html` prefix, and that the address is not `http`/`file:`). -/
def getSuspendedUrl (originalUrl title : String) : String :=
  suspendedPageBaseUrl ++
    ("?url=" ++ originalUrl ++ (if title == "" then "" else "&title=" ++ title))

/-- `isExtensionSuspendedPage(url)`: the url starts with the placeholder
page's own base address. -/
def isExtensionSuspendedPage (url : String) : Bool :=
  urlStartsWithB url suspendedPageBaseUrl

-- ---------------------------------------------------------------------------
-- Tabs and the browser
-- ---------------------------------------------------------------------------

/-- Live attributes of a browser tab, as read through `chrome.tabs`.
`lastAccessed` is optional as in the host API; a tab with no URL is
modelled with `url = ""` (the source reads `tab.url || ""`). -/
structure Tab where
  id : Nat
  url : String
  title : String
  favIconUrl : Option String
  windowId : Nat
  index : Nat
  pinned : Bool
  active : Bool
  audible : Bool
  groupId : Int
  lastAccessed : Option Int
deriving Repr, DecidableEq

/-- The host's tab set plus an id allocator for `chrome.tabs.create`. -/
structure Browser where
  tabs : List Tab
  nextTabId : Nat
deriving Repr, DecidableEq

/-- `chrome.tabs.get`: `none` models the call rejecting (tab vanished). -/
def Browser.getTab (b : Browser) (tabId : Nat) : Option Tab :=
  b.tabs.find? (fun t => t.id == tabId)

/-- `chrome.tabs.create({windowId, index, active, pinned, url})`. -/
def Browser.createTab (b : Browser) (windowId index : Nat)
    (active pinned : Bool) (url : String) : Browser × Tab :=
  let t : Tab :=
    { id := b.nextTabId, url := url, title := "", favIconUrl := none,
      windowId := windowId, index := index, pinned := pinned, active := active,
      audible := false, groupId := -1, lastAccessed := none }
  ({ tabs := b.tabs ++ [t], nextTabId := b.nextTabId + 1 }, t)

/-- `chrome.tabs.move(tabId, {index})` (repositioning of other tabs in the
strip is not modelled; no claim observes it). -/
def Browser.moveTab (b : Browser) (tabId index : Nat) : Browser :=
  { b with tabs := b.tabs.map (fun t =>
      if t.id == tabId then { t with index := index } else t) }

/-- `chrome.tabs.update(tabId, {url?, active?, pinned?})` (focus side effects
on other tabs are not modelled; no claim observes them). -/
def Browser.updateTab (b : Browser) (tabId : Nat) (url : Option String)
    (active pinned : Option Bool) : Browser :=
  { b with tabs := b.tabs.map (fun t =>
      if t.id == tabId then
        { t with url := url.getD t.url, active := active.getD t.active,
                 pinned := pinned.getD t.pinned }
      else t) }

/-- `chrome.tabs.remove(tabId)`. -/
def Browser.removeTab (b : Browser) (tabId : Nat) : Browser :=
  { b with tabs := b.tabs.filter (fun t => t.id != tabId) }

-- ---------------------------------------------------------------------------
-- Eligibility policy
-- ---------------------------------------------------------------------------

/-- `eligibleForSuspend(tab, reason)`; `tab = none` models a missing/null
tab.  `tab.id = 0` is falsy in JS, so the `!tab.id` guard rejects it. -/
def eligibleForSuspend (s : Settings) (tab : Option Tab) (reason : String) : Bool :=
  match tab with
  | none => false
  | some t =>
    if t.id == 0 then false
    else
      let url := t.url
      if !(urlStartsWithB url "http" || urlStartsWithB url "file:") then false
      else if isExtensionSuspendedPage url then false
      else if s.ignorePinned && t.pinned then false
      else if s.ignoreAudio && t.audible then false
      else if s.ignoreActive && t.active && reason == "auto" then false
      else if isWhitelisted s url then false
      else true

-- ---------------------------------------------------------------------------
-- Suspended-tab registry and system state
-- ---------------------------------------------------------------------------

/-- One registry record (`suspendedTabsCache[tabId]`).  In the source the
base record is built without `strategy`/`placeholderTabId` and those keys are
added when the record is stored; here the base record carries
`strategy = ""`, `placeholderTabId = none` until then. -/
structure TabRecord where
  url : String
  title : String
  favicon : Option String
  suspendedAt : Int
  reason : String
  originalTabId : Nat
  windowId : Nat
  index : Nat
  pinned : Bool
  wasActive : Bool
  strategy : String
  placeholderTabId : Option Nat
deriving Repr, DecidableEq

/-- The background worker's state: the host's tabs, the in-memory settings,
the in-memory registry (`suspendedTabsCache`), its durable copy under
`STORAGE_KEYS.SUSPENDED_TABS`, and the ephemeral `lastActivityMap`. -/
structure SysState where
  browser : Browser
  currentSettings : Settings
  suspendedTabsCache : List (Nat × TabRecord)
  persistedTabs : List (Nat × TabRecord)
  lastActivityMap : List (Nat × Int)
deriving Repr, DecidableEq

-- ---------------------------------------------------------------------------
-- Suspension engine
-- ---------------------------------------------------------------------------

/-- Result object of `suspendTab`.  `ignored` appears in the message
contract's response shape (and the popup reads it) but the background never
sets it; it is kept in the record to state that fact. -/
structure SuspendResult where
  success : Bool
  already : Option Bool := none
  ignored : Option Bool := none
  replaced : Option Bool := none
  navigated : Option Bool := none
  error : Option String := none
deriving Repr, DecidableEq

/-- The `baseRecord` snapshot `suspendTab` takes of the live tab. -/
def mkBaseRecord (tab : Tab) (now : Int) (reason : String) : TabRecord :=
  { url := tab.url, title := tab.title, favicon := tab.favIconUrl,
    suspendedAt := now, reason := reason, originalTabId := tab.id,
    windowId := tab.windowId, index := tab.index, pinned := tab.pinned,
    wasActive := tab.active, strategy := "", placeholderTabId := none }

/-- `suspendTab(tabId, reason)` at time `now`.  `createThrows` models the one
uncaught failure point of the replace strategy (`chrome.tabs.create`
rejecting): the inner `tabs.move`, `tabs.group` and `tabs.remove` calls and
the persist are individually caught in the source, so the replace block
falls through to the navigate fallback exactly when the create call throws. -/
def suspendTab (st : SysState) (now : Int) (createThrows : Bool)
    (tabId : Nat) (reason : String) : SysState × SuspendResult :=
  match st.browser.getTab tabId with
  | none => (st, { success := false, error := some "No tab with id" })
  | some tab =>
    if !(eligibleForSuspend st.currentSettings (some tab) reason) then
      (st, { success := false })
    else if isExtensionSuspendedPage tab.url then
      (st, { success := false, already := some true })
    else if (alistLookup st.suspendedTabsCache tabId).isSome then
      (st, { success := false, already := some true })
    else
      let baseRecord := mkBaseRecord tab now reason
      if !createThrows then
        -- replace strategy
        let suspendedUrl := getSuspendedUrl baseRecord.url baseRecord.title
        let created := st.browser.createTab tab.windowId (tab.index + 1)
          tab.active tab.pinned suspendedUrl
        let newTab := created.2
        let b2 := if newTab.index != baseRecord.index then
            created.1.moveTab newTab.id baseRecord.index
          else created.1
        -- group preservation is best-effort and not modelled
        let cache2 := alistInsert st.suspendedTabsCache newTab.id
          { baseRecord with strategy := "replace",
                            placeholderTabId := some newTab.id }
        let b3 := b2.removeTab tab.id
        ({ st with browser := b3, suspendedTabsCache := cache2,
                   persistedTabs := cache2 },
         { success := true, replaced := some true })
      else
        -- navigate fallback
        let record := { baseRecord with strategy := "navigate" }
        let cache2 := alistInsert st.suspendedTabsCache tabId record
        let b2 := st.browser.updateTab tabId
          (some (getSuspendedUrl record.url record.title)) none none
        ({ st with browser := b2, suspendedTabsCache := cache2,
                   persistedTabs := cache2 },
         { success := true, navigated := some true })

/-- Result object of `unsuspendTab`. -/
structure UnsuspendResult where
  success : Bool
  notSuspended : Option Bool := none
  restored : Option String := none
  error : Option String := none
deriving Repr, DecidableEq

/-- `unsuspendTab(tabId)`.  `updateThrows` models `chrome.tabs.update`
rejecting; the call also rejects when the tab no longer exists.  Either way
the failure is caught after the record was deleted and the deletion
persisted, so the deletion survives. -/
def unsuspendTab (st : SysState) (updateThrows : Bool) (tabId : Nat) :
    SysState × UnsuspendResult :=
  match alistLookup st.suspendedTabsCache tabId with
  | none => (st, { success := false, notSuspended := some true })
  | some rec =>
    let cache2 := alistErase st.suspendedTabsCache tabId
    let st2 := { st with suspendedTabsCache := cache2, persistedTabs := cache2 }
    if updateThrows || (st2.browser.getTab tabId).isNone then
      (st2, { success := false, error := some "update failed" })
    else if rec.strategy == "replace" then
      ({ st2 with browser :=
          st2.browser.updateTab tabId (some rec.url) (some true) (some rec.pinned) },
       { success := true, restored := some "replace" })
    else
      ({ st2 with browser := st2.browser.updateTab tabId (some rec.url) none none },
       { success := true, restored := some "navigate" })

-- ---------------------------------------------------------------------------
-- Tab lifecycle hooks and message handlers
-- ---------------------------------------------------------------------------

/-- `chrome.tabs.onRemoved` listener: drop the registry record (persisting
the cache when one was present) and the activity-map entry of the closed
tab. -/
def handleTabRemoved (st : SysState) (tabId : Nat) : SysState :=
  let st2 :=
    if (alistLookup st.suspendedTabsCache tabId).isSome then
      let cache2 := alistErase st.suspendedTabsCache tabId
      { st with suspendedTabsCache := cache2, persistedTabs := cache2 }
    else st
  { st2 with lastActivityMap := alistErase st2.lastActivityMap tabId }

/-- `chrome.tabs.onUpdated` listener: when a tab with a registry record
reports a URL change away from the suspended page, drop its record and
persist. -/
def handleTabUpdated (st : SysState) (tabId : Nat) (changeUrl : Option String) :
    SysState :=
  match changeUrl with
  | none => st
  | some u =>
    if (alistLookup st.suspendedTabsCache tabId).isSome &&
        !(isExtensionSuspendedPage u) then
      let cache2 := alistErase st.suspendedTabsCache tabId
      { st with suspendedTabsCache := cache2, persistedTabs := cache2 }
    else st

/-- `onMessage` handler for `getSuspendedTabData`: the sender's own record,
or null when the sender has no tab or no record. -/
def getSuspendedTabData (st : SysState) (senderTabId : Option Nat) :
    Option TabRecord :=
  match senderTabId with
  | some tabId => alistLookup st.suspendedTabsCache tabId
  | none => none

-- ---------------------------------------------------------------------------
-- Inactivity scheduler: re-entrancy guard
-- ---------------------------------------------------------------------------

/-- The scheduler's mutual-exclusion flags (`scanRunning`,
`scanRerunRequested`). -/
structure SchedulerState where
  scanRunning : Bool
  scanRerunRequested : Bool
deriving Repr, DecidableEq

/-- The entry guard of `runInactivityScan`: a call while a scan is running
sets `scanRerunRequested` and returns immediately; otherwise it sets
`scanRunning` and the scan body starts (second component: whether a scan
body started). -/
def scanEnter (s : SchedulerState) : SchedulerState × Bool :=
  if s.scanRunning then ({ s with scanRerunRequested := true }, false)
  else ({ s with scanRunning := true }, true)

/-- The `finally` block of `runInactivityScan`: clear `scanRunning`; when a
rerun was requested, clear the request and re-enter `runInactivityScan`,
which starts the one follow-up scan (second component: whether a follow-up
scan started). -/
def scanExit (s : SchedulerState) : SchedulerState × Bool :=
  let s2 := { s with scanRunning := false }
  if s2.scanRerunRequested then
    ({ scanRunning := true, scanRerunRequested := false }, true)
  else (s2, false)

/-- `n` calls of `runInactivityScan` arriving in sequence (each one runs the
entry guard); returns the final flag state and how many scan bodies the
calls started. -/
def scanTriggers : Nat → SchedulerState → SchedulerState × Nat
  | 0, s => (s, 0)
  | n + 1, s =>
    let e := scanEnter s
    let r := scanTriggers n e.1
    (r.1, (if e.2 then 1 else 0) + r.2)

-- ---------------------------------------------------------------------------
-- Inactivity scheduler: next-wake delay computation
-- ---------------------------------------------------------------------------

/-- The contribution of one tab to the scan's `nextDelay` (`none`: the tab is
skipped, was just suspended, or has no activity information).  `last` is the
activity-map entry when present, else the host's `lastAccessed`, as after the
seeding step of the loop. -/
def tabScanContribution (s : Settings) (am : List (Nat × Int))
    (thresholdMs now : Int) (tab : Tab) : Option Int :=
  if tab.id == 0 then none
  else if isExtensionSuspendedPage tab.url then none
  else
    match (alistLookup am tab.id).orElse (fun _ => tab.lastAccessed) with
    | none => none
    | some last =>
      let inactiveFor := now - last
      if thresholdMs ≤ inactiveFor then
        if eligibleForSuspend s (some tab) "auto" then none
        else some thresholdMs
      else some (thresholdMs - inactiveFor)

/-- One step of the running `nextDelay = Math.min(nextDelay, x)` update:
`none` is the initial `Infinity`, a `none` contribution leaves the
accumulator alone (`continue`/no contribution). -/
def minStep (acc c : Option Int) : Option Int :=
  match c with
  | none => acc
  | some v =>
    match acc with
    | none => some v
    | some a => some (min a v)

/-- The `nextDelay` accumulation over the tab loop, starting from
`Infinity` (`none`). -/
def foldNextDelay (contribs : List (Option Int)) : Option Int :=
  contribs.foldl minStep none

/-- The final `nextDelay` of `runInactivityScan`: default to 5 minutes when
nothing contributed, then clamp to the floor `5000` ms and the ceiling
`max(thresholdMs, 15 minutes)`. -/
def clampNextDelay (thresholdMs : Int) (nd : Option Int) : Int :=
  max 5000 (min (nd.getD (5 * 60 * 1000)) (max thresholdMs (15 * 60 * 1000)))

/-- The delay of the one-shot alarm `runInactivityScan` schedules (when it
schedules one: auto-suspend on and `thresholdMs` non-zero). -/
def scanNextDelay (s : Settings) (am : List (Nat × Int)) (now : Int)
    (tabs : List Tab) : Int :=
  let th := scanThresholdMs s
  clampNextDelay th (foldNextDelay (tabs.map (tabScanContribution s am th now)))

-- ---------------------------------------------------------------------------
-- Derived notions used by the statements
-- ---------------------------------------------------------------------------

/-- Freshness of the id allocator: every live tab id is below `nextTabId`
(the host never hands out a duplicate id). -/
abbrev BrowserWf (b : Browser) : Prop :=
  ∀ t ∈ b.tabs, t.id < b.nextTabId

/-- Key uniqueness of the registry object: tab id keys are pairwise
distinct, as for any JS object. -/
abbrev RegistryWf (r : List (Nat × TabRecord)) : Prop :=
  (r.map Prod.fst).Nodup

/-- The tab id that carries the registry record after a successful
`suspendTab`: the original id under the navigate fallback, the freshly
created placeholder's id under the replace strategy. -/
def resultingTabId (st : SysState) (createThrows : Bool) (tabId : Nat) : Nat :=
  if createThrows then tabId else st.browser.nextTabId

-- ---------------------------------------------------------------------------
-- Concrete fixture used by witnesses and counterexamples
-- ---------------------------------------------------------------------------

/-- An ordinary suspendable tab. -/
def exTab : Tab :=
  { id := 1, url := "https://a.com/x", title := "A", favIconUrl := none,
    windowId := 1, index := 0, pinned := false, active := false,
    audible := false, groupId := -1, lastAccessed := some 0 }

/-- A worker state with the single tab `exTab`, default settings and empty
registry. -/
def exState : SysState :=
  { browser := { tabs := [exTab], nextTabId := 2 },
    currentSettings := DEFAULT_SETTINGS,
    suspendedTabsCache := [], persistedTabs := [], lastActivityMap := [] }

/-- `exState` with its tab pinned (ineligible under `ignorePinned`). -/
def exPinnedState : SysState :=
  { exState with browser := { tabs := [{ exTab with pinned := true }], nextTabId := 2 } }

/-- A registry record as produced by suspending `exTab` in place. -/
def exRecord : TabRecord :=
  { url := "https://a.com/x", title := "A", favicon := none,
    suspendedAt := 1000, reason := "manual", originalTabId := 1,
    windowId := 1, index := 0, pinned := false, wasActive := false,
    strategy := "navigate", placeholderTabId := none }

/-- `exState` after `exTab` was suspended in place: the registry and its
durable copy hold `exRecord` under the tab's id. -/
def exSuspendedState : SysState :=
  { exState with
      suspendedTabsCache := [(1, exRecord)]
      persistedTabs := [(1, exRecord)] }

-- ---------------------------------------------------------------------------
-- Association-list lemmas
-- ---------------------------------------------------------------------------

theorem alistLookup_insert_self {α : Type} (l : List (Nat × α)) (k : Nat) (v : α) :
    alistLookup (alistInsert l k v) k = some v := by
  simp [alistLookup, alistInsert, List.find?]

theorem alistLookup_erase_self {α : Type} (l : List (Nat × α)) (k : Nat) :
    alistLookup (alistErase l k) k = none := by
  have h : (alistErase l k).find? (fun p => p.1 == k) = none := by
    rw [List.find?_eq_none]
    intro p hp
    have := List.of_mem_filter hp
    simpa using this
  simp [alistLookup, h]

theorem alistErase_keys_nodup {α : Type} (l : List (Nat × α)) (k : Nat)
    (h : (l.map Prod.fst).Nodup) : ((alistErase l k).map Prod.fst).Nodup :=
  ((List.filter_sublist l).map Prod.fst).nodup h

theorem alistInsert_keys_nodup {α : Type} (l : List (Nat × α)) (k : Nat) (v : α)
    (h : (l.map Prod.fst).Nodup) : ((alistInsert l k v).map Prod.fst).Nodup := by
  refine List.Nodup.cons ?_ (alistErase_keys_nodup l k h)
  intro hk
  rcases List.mem_map.mp hk with ⟨p, hp, hpk⟩
  have := List.of_mem_filter hp
  rw [hpk] at this
  simp at this

-- ---------------------------------------------------------------------------
-- Fold-minimum lemmas for the scheduler's delay computation
-- ---------------------------------------------------------------------------

theorem foldl_minStep_some (L : List (Option Int)) (a : Int) :
    L.foldl minStep (some a) = some ((L.filterMap id).foldl min a) := by
  induction L generalizing a with
  | nil => rfl
  | cons c L ih =>
    cases c with
    | none => simp [minStep, ih]
    | some v => simp [minStep, ih]

theorem foldl_min_facts (L : List Int) (a : Int) :
    (L.foldl min a = a ∨ L.foldl min a ∈ L)
    ∧ L.foldl min a ≤ a
    ∧ ∀ c ∈ L, L.foldl min a ≤ c := by
  induction L generalizing a with
  | nil => exact ⟨Or.inl rfl, le_refl a, by simp⟩
  | cons b L ih =>
    obtain ⟨hmem, hle, hall⟩ := ih (min a b)
    have hfold : (b :: L).foldl min a = L.foldl min (min a b) := by simp
    refine ⟨?_, ?_, ?_⟩
    · rcases hmem with h | h
      · rcases min_choice a b with hab | hab
        · exact Or.inl (by rw [hfold, h, hab])
        · exact Or.inr (by rw [hfold, h, hab]; exact List.mem_cons_self b L)
      · exact Or.inr (by rw [hfold]; exact List.mem_cons_of_mem b h)
    · exact le_trans (by rw [hfold]; exact hle) (min_le_left a b)
    · intro c hc
      rcases List.mem_cons.mp hc with rfl | hc
      · exact le_trans (by rw [hfold]; exact hle) (min_le_right a c)
      · rw [hfold]; exact hall c hc

theorem foldNextDelay_min (L : List (Option Int)) (m : Int)
    (h : foldNextDelay L = some m) :
    m ∈ L.filterMap id ∧ ∀ c ∈ L.filterMap id, m ≤ c := by
  induction L with
  | nil => simp [foldNextDelay] at h
  | cons c L ih =>
    cases c with
    | none =>
      have h2 : foldNextDelay L = some m := by
        simpa [foldNextDelay, minStep] using h
      simpa using ih h2
    | some v =>
      have h2 : L.foldl minStep (some v) = some m := by
        simpa [foldNextDelay, minStep] using h
      rw [foldl_minStep_some] at h2
      obtain ⟨hmem, hle, hall⟩ := foldl_min_facts (L.filterMap id) v
      have hm : (L.filterMap id).foldl min v = m := Option.some_inj.mp h2
      subst hm
      constructor
      · rcases hmem with hh | hh
        · rw [hh]; simp
        · simp only [List.filterMap_cons, id]
          exact List.mem_cons_of_mem v hh
      · intro d hd
        have hd2 : d = v ∨ d ∈ L.filterMap id := by
          simpa [List.filterMap_cons] using hd
        rcases hd2 with rfl | hdL
        · exact hle
        · exact hall d hdL

theorem foldNextDelay_eq_none (L : List (Option Int)) :
    foldNextDelay L = none ↔ L.filterMap id = [] := by
  induction L with
  | nil => simp [foldNextDelay]
  | cons c L ih =>
    cases c with
    | none => simpa [foldNextDelay, minStep] using ih
    | some v =>
      simp [foldNextDelay, minStep, foldl_minStep_some]

-- ---------------------------------------------------------------------------
-- C6: the scheduled next-wake delay
-- ---------------------------------------------------------------------------

/-- C6: the scan's next-wake delay is the minimum contribution across all
tabs (the accumulated value, when some tab contributed, is a contribution and
a lower bound of all contributions), defaults to 5 minutes when no tab
contributed, and is always clamped between the floor 5000 ms and the ceiling
`max(thresholdMs, 15 minutes)`; in particular for a 30-minute threshold every
scheduled delay lies between 5 seconds and 30 minutes. -/
theorem scan_next_delay_clamped :
    (∀ (L : List (Option Int)) (m : Int), foldNextDelay L = some m →
        m ∈ L.filterMap id ∧ ∀ c ∈ L.filterMap id, m ≤ c)
    ∧ (∀ L : List (Option Int), foldNextDelay L = none ↔ L.filterMap id = [])
    ∧ (∀ (th : Int) (L : List (Option Int)), foldNextDelay L = none →
        clampNextDelay th (foldNextDelay L) = 5 * 60 * 1000)
    ∧ (∀ (s : Settings) (am : List (Nat × Int)) (now : Int) (tabs : List Tab),
        5000 ≤ scanNextDelay s am now tabs
        ∧ scanNextDelay s am now tabs ≤ max (scanThresholdMs s) (15 * 60 * 1000))
    ∧ (∀ (s : Settings) (am : List (Nat × Int)) (now : Int) (tabs : List Tab),
        s.autoSuspendTime = 30 →
        5000 ≤ scanNextDelay s am now tabs
        ∧ scanNextDelay s am now tabs ≤ 30 * 60 * 1000) := by
  have hceil : ∀ th : Int, (5000 : Int) ≤ max th (15 * 60 * 1000) :=
    fun th => le_trans (by norm_num) (le_max_right th _)
  have hlo : ∀ (th : Int) (nd : Option Int), 5000 ≤ clampNextDelay th nd :=
    fun th nd => le_max_left _ _
  have hhi : ∀ (th : Int) (nd : Option Int),
      clampNextDelay th nd ≤ max th (15 * 60 * 1000) :=
    fun th nd => max_le (hceil th) (min_le_right _ _)
  refine ⟨foldNextDelay_min, foldNextDelay_eq_none, ?_, ?_, ?_⟩
  · intro th L h
    rw [h]
    have h300 : (5 * 60 * 1000 : Int) ≤ max th (15 * 60 * 1000) :=
      le_trans (by norm_num) (le_max_right th _)
    simp [clampNextDelay, min_eq_left h300]
  · intro s am now tabs
    exact ⟨hlo _ _, hhi _ _⟩
  · intro s am now tabs h30
    have hth : scanThresholdMs s = 30 * 60 * 1000 := by
      simp [scanThresholdMs, h30]
    refine ⟨hlo _ _, ?_⟩
    have := hhi (scanThresholdMs s)
      (foldNextDelay (tabs.map (tabScanContribution s am (scanThresholdMs s) now)))
    rw [hth] at this
    have hmax : max (30 * 60 * 1000 : Int) (15 * 60 * 1000) = 30 * 60 * 1000 := by
      norm_num
    rw [hmax] at this
    simpa [scanNextDelay, hth] using this

/-- Witness for C6: the delay bounds at the default 30-minute threshold, and
the minimum characterisation at a concrete contribution list. -/
theorem scan_next_delay_clamped_witness :
    (5000 ≤ scanNextDelay DEFAULT_SETTINGS [] 0 []
      ∧ scanNextDelay DEFAULT_SETTINGS [] 0 [] ≤ 30 * 60 * 1000)
    ∧ ((7000 : Int) ∈ ([some (7000 : Int), none].filterMap id)
      ∧ ∀ c ∈ ([some (7000 : Int), none].filterMap id), (7000 : Int) ≤ c) :=
  ⟨scan_next_delay_clamped.2.2.2.2 DEFAULT_SETTINGS [] 0 [] rfl,
   scan_next_delay_clamped.1 [some 7000, none] 7000 (by decide)⟩

-- ---------------------------------------------------------------------------
-- C7: whitelist matching semantics
-- ---------------------------------------------------------------------------

theorem regexAccepts_plain (p : List Char) : ∀ s : List Char,
    (∀ c ∈ p, ¬c = '*' ∧ ¬c = '.' ∧ regexSpecialChar c = false) →
    (regexAccepts (compilePattern p) s = true ↔ p = s) := by
  induction p with
  | nil =>
    intro s _
    cases s <;> simp [compilePattern, regexAccepts]
  | cons pc ps ih =>
    intro s h
    obtain ⟨⟨hstar, hdot, -⟩, htail⟩ :
        (¬pc = '*' ∧ ¬pc = '.' ∧ regexSpecialChar pc = false)
          ∧ ∀ c ∈ ps, ¬c = '*' ∧ ¬c = '.' ∧ regexSpecialChar c = false := by
      exact ⟨h pc (List.mem_cons_self pc ps), fun c hc => h c (List.mem_cons_of_mem pc hc)⟩
    cases s with
    | nil => simp [compilePattern, regexAccepts, hstar, hdot]
    | cons c s2 => simp [compilePattern, regexAccepts, hstar, hdot, ih s2 htail]

/-- C7: whitelist matching is case-sensitive and anchored to the full URL
(a pattern of plain characters — no `*`, no `.`, no live metacharacter —
matches exactly the identical string), `*` matches any substring sequence
with the lone pattern `*` matching everything, and the pattern
`*.example.com/*` matches `https://mail.example.com/inbox` (but not its
upper-cased variant) and does not match `https://example.org`.  Because the
source's escape step is a no-op, the `.` in the pattern is a live
any-character metacharacter, so the same pattern also matches
`https://mailXexample.com/inbox`. -/
theorem whitelist_matching_semantics :
    (∀ url : String, matchesPattern "*" url = true)
    ∧ (∀ p s : List Char,
        (∀ c ∈ p, ¬c = '*' ∧ ¬c = '.' ∧ regexSpecialChar c = false) →
        (regexAccepts (compilePattern p) s = true ↔ p = s))
    ∧ matchesPattern "*.example.com/*" "https://mail.example.com/inbox" = true
    ∧ matchesPattern "*.example.com/*" "https://mailXexample.com/inbox" = true
    ∧ matchesPattern "*.example.com/*" "https://mail.EXAMPLE.com/inbox" = false
    ∧ matchesPattern "*.example.com/*" "https://example.org" = false
    ∧ isWhitelisted { DEFAULT_SETTINGS with urlWhitelist := "*.example.com/*" }
        "https://mail.example.com/inbox" = true
    ∧ isWhitelisted { DEFAULT_SETTINGS with urlWhitelist := "*.example.com/*" }
        "https://example.org" = false := by
  refine ⟨fun url => rfl, regexAccepts_plain, ?_, ?_, ?_, ?_, ?_, ?_⟩ <;> decide

/-- Witness for C7: the anchored-exact-match part at a concrete plain
pattern. -/
theorem whitelist_matching_semantics_witness :
    regexAccepts (compilePattern "https://a/b".toList) "https://a/b".toList = true :=
  (whitelist_matching_semantics.2.1 "https://a/b".toList "https://a/b".toList
    (by decide)).mpr rfl

-- ---------------------------------------------------------------------------
-- Prefix lemmas: the placeholder URL is never http/file
-- ---------------------------------------------------------------------------

theorem isPrefixOf_append_false (p : List Char) : ∀ l1 l2 : List Char,
    p.isPrefixOf l1 = false → p.length ≤ l1.length →
    p.isPrefixOf (l1 ++ l2) = false := by
  induction p with
  | nil => intro l1 l2 h _; simp [List.isPrefixOf] at h
  | cons a p ih =>
    intro l1 l2 h hlen
    cases l1 with
    | nil => simp at hlen
    | cons b l1 =>
      simp only [List.isPrefixOf, Bool.and_eq_false_iff] at h
      rcases h with h | h
      · simp [List.isPrefixOf, h]
      · have := ih l1 l2 h (by simpa using hlen)
        simp [List.isPrefixOf, this]

theorem suspendedUrl_data (u t : String) :
    (getSuspendedUrl u t).toList = suspendedPageBaseUrl.toList ++
      ("?url=" ++ u ++ (if t == "" then "" else "&title=" ++ t)).toList :=
  String.data_append _ _

theorem suspendedUrl_not_http (u t : String) :
    urlStartsWithB (getSuspendedUrl u t) "http" = false := by
  rw [urlStartsWithB, suspendedUrl_data]
  exact isPrefixOf_append_false _ _ _ (by decide) (by decide)

theorem suspendedUrl_not_file (u t : String) :
    urlStartsWithB (getSuspendedUrl u t) "file:" = false := by
  rw [urlStartsWithB, suspendedUrl_data]
  exact isPrefixOf_append_false _ _ _ (by decide) (by decide)

/-- A tab currently showing the placeholder page is never eligible: its URL
is a `chrome-extension://` address, so the http/file check already rejects
it (before the dedicated suspended-page check is even reached). -/
theorem eligible_suspended_url_false (s : Settings) (tab : Tab) (reason u t : String)
    (h : tab.url = getSuspendedUrl u t) :
    eligibleForSuspend s (some tab) reason = false := by
  have h1 := suspendedUrl_not_http u t
  have h2 := suspendedUrl_not_file u t
  rw [← h] at h1 h2
  unfold eligibleForSuspend
  by_cases hid : tab.id == 0 <;> simp [hid, h1, h2]

-- ---------------------------------------------------------------------------
-- Browser lookup lemmas
-- ---------------------------------------------------------------------------

theorem getTab_updateTab_self (b : Browser) (k : Nat) (url : Option String)
    (a p : Option Bool) (t : Tab) (h : b.getTab k = some t) :
    (b.updateTab k url a p).getTab k =
      some { t with url := url.getD t.url, active := a.getD t.active,
                    pinned := p.getD t.pinned } := by
  unfold Browser.getTab Browser.updateTab at *
  rw [List.find?_map]
  have hfun : ((fun x : Tab => x.id == k) ∘ (fun x : Tab =>
      if x.id == k then
        { x with url := url.getD x.url, active := a.getD x.active,
                 pinned := p.getD x.pinned }
      else x)) = fun x : Tab => x.id == k := by
    funext x
    by_cases hx : x.id == k <;> simp [Function.comp, hx]
  rw [hfun, h]
  have ht := List.find?_some h
  simp at ht
  simp [ht]

theorem getTab_removeTab_self (b : Browser) (k : Nat) :
    (b.removeTab k).getTab k = none := by
  unfold Browser.removeTab Browser.getTab
  rw [List.find?_eq_none]
  intro x hx
  have := List.of_mem_filter hx
  simpa using this

/-- After the replace transition (create the placeholder at `index + 1`,
move it into the original slot, remove the original tab), looking up the
fresh placeholder id finds the placeholder, in its final position. -/
theorem getTab_replace_new (b : Browser) (tid : Nat) (tab : Tab)
    (w i2 j : Nat) (a p : Bool) (u : String)
    (hwf : BrowserWf b) (h : b.getTab tid = some tab) :
    (((b.createTab w i2 a p u).1.moveTab (b.createTab w i2 a p u).2.id j).removeTab
        tid).getTab b.nextTabId =
      some { id := b.nextTabId, url := u, title := "", favIconUrl := none,
             windowId := w, index := j, pinned := p, active := a,
             audible := false, groupId := -1, lastAccessed := none } := by
  have htid : tab.id = tid := by
    have := List.find?_some h
    simpa using this
  have htab : tab ∈ b.tabs := List.mem_of_find?_eq_some h
  have htlt : tab.id < b.nextTabId := hwf tab htab
  unfold Browser.createTab Browser.moveTab Browser.removeTab Browser.getTab
  simp only [List.map_append, List.filter_append, List.find?_append]
  have hleft :
      ((b.tabs.map (fun x : Tab =>
          if x.id == b.nextTabId then { x with index := j } else x)).filter
        (fun x : Tab => x.id != tid)).find?
        (fun x : Tab => x.id == b.nextTabId) = none := by
    rw [List.find?_eq_none]
    intro x hx
    have hx2 : x ∈ b.tabs.map (fun x : Tab =>
        if x.id == b.nextTabId then { x with index := j } else x) :=
      List.mem_of_mem_filter hx
    rcases List.mem_map.mp hx2 with ⟨y, hy, hyx⟩
    have hylt : y.id < b.nextTabId := hwf y hy
    have hyne : ¬ y.id = b.nextTabId := by omega
    simp [hyne] at hyx
    subst hyx
    simp [hyne]
  rw [hleft]
  have hne2 : ¬ b.nextTabId = tid := by omega
  simp [hne2]

-- ---------------------------------------------------------------------------
-- Success-branch characterisations of suspendTab
-- ---------------------------------------------------------------------------

theorem suspendTab_navigate_success_state (st : SysState) (now : Int)
    (tabId : Nat) (reason : String)
    (hs : (suspendTab st now true tabId reason).2.success = true) :
    ∃ tab, st.browser.getTab tabId = some tab ∧
      suspendTab st now true tabId reason =
        ({ st with
            browser := st.browser.updateTab tabId
              (some (getSuspendedUrl tab.url tab.title)) none none,
            suspendedTabsCache := alistInsert st.suspendedTabsCache tabId
              { (mkBaseRecord tab now reason) with strategy := "navigate" },
            persistedTabs := alistInsert st.suspendedTabsCache tabId
              { (mkBaseRecord tab now reason) with strategy := "navigate" } },
         { success := true, navigated := some true }) := by
  cases h1 : st.browser.getTab tabId with
  | none =>
    unfold suspendTab at hs
    rw [h1] at hs
    simp at hs
  | some tab =>
    refine ⟨tab, rfl, ?_⟩
    unfold suspendTab at hs ⊢
    rw [h1] at hs ⊢
    by_cases he : eligibleForSuspend st.currentSettings (some tab) reason = true
    · by_cases hp : isExtensionSuspendedPage tab.url = true
      · simp [he, hp] at hs
      · rw [Bool.not_eq_true] at hp
        by_cases hl : (alistLookup st.suspendedTabsCache tabId).isSome = true
        · simp [he, hp, hl] at hs
        · rw [Bool.not_eq_true] at hl
          simp [he, hp, hl, mkBaseRecord]
    · rw [Bool.not_eq_true] at he
      simp [he] at hs

theorem suspendTab_replace_success_state (st : SysState) (now : Int)
    (tabId : Nat) (reason : String)
    (hs : (suspendTab st now false tabId reason).2.success = true) :
    ∃ tab, st.browser.getTab tabId = some tab ∧
      suspendTab st now false tabId reason =
        ({ st with
            browser := ((st.browser.createTab tab.windowId (tab.index + 1)
                tab.active tab.pinned
                (getSuspendedUrl tab.url tab.title)).1.moveTab
                  (st.browser.createTab tab.windowId (tab.index + 1) tab.active
                    tab.pinned (getSuspendedUrl tab.url tab.title)).2.id
                  tab.index).removeTab tabId,
            suspendedTabsCache := alistInsert st.suspendedTabsCache
              st.browser.nextTabId
              { (mkBaseRecord tab now reason) with
                  strategy := "replace"
                  placeholderTabId := some st.browser.nextTabId },
            persistedTabs := alistInsert st.suspendedTabsCache
              st.browser.nextTabId
              { (mkBaseRecord tab now reason) with
                  strategy := "replace"
                  placeholderTabId := some st.browser.nextTabId } },
         { success := true, replaced := some true }) := by
  cases h1 : st.browser.getTab tabId with
  | none =>
    unfold suspendTab at hs
    rw [h1] at hs
    simp at hs
  | some tab =>
    refine ⟨tab, rfl, ?_⟩
    unfold suspendTab at hs ⊢
    rw [h1] at hs ⊢
    by_cases he : eligibleForSuspend st.currentSettings (some tab) reason = true
    · by_cases hp : isExtensionSuspendedPage tab.url = true
      · simp [he, hp] at hs
      · rw [Bool.not_eq_true] at hp
        by_cases hl : (alistLookup st.suspendedTabsCache tabId).isSome = true
        · simp [he, hp, hl] at hs
        · rw [Bool.not_eq_true] at hl
          have hidx : ((st.browser.createTab tab.windowId (tab.index + 1)
              tab.active tab.pinned
              (getSuspendedUrl tab.url tab.title)).2.index
                != (mkBaseRecord tab now reason).index) = true := by
            simp [Browser.createTab, mkBaseRecord]
          have htid : tab.id = tabId := by
            have := List.find?_some h1
            simpa using this
          simp [he, hp, hl, hidx, htid, mkBaseRecord, Browser.createTab]
    · rw [Bool.not_eq_true] at he
      simp [he] at hs

-- ---------------------------------------------------------------------------
-- C2: policy rejection is surfaced without flags
-- ---------------------------------------------------------------------------

/-- Amended C2: when the eligibility policy rejects the tab, `suspendTab`
(and hence the `suspendTab`/`suspendCurrentTab` message response, which
forwards its result verbatim) is the bare `{success: false}` — the `ignored`
flag of the response shape is never set, no `error` is reported, and nothing
is mutated. -/
theorem suspend_ineligible_bare_failure (st : SysState) (now : Int)
    (cf : Bool) (tabId : Nat) (reason : String) (tab : Tab)
    (htab : st.browser.getTab tabId = some tab)
    (hel : eligibleForSuspend st.currentSettings (some tab) reason = false) :
    suspendTab st now cf tabId reason = (st, { success := false }) := by
  unfold suspendTab
  rw [htab]
  simp [hel]

/-- Witness for C2 (amended): the pinned tab of `exPinnedState` is rejected
with the bare failure result. -/
theorem suspend_ineligible_bare_failure_witness :
    suspendTab exPinnedState 0 false 1 "manual" =
      (exPinnedState, { success := false }) :=
  suspend_ineligible_bare_failure exPinnedState 0 false 1 "manual"
    { exTab with pinned := true } (by decide) (by decide)

/-- Counterexample to C2 as stated: the policy rejects the pinned tab of
`exPinnedState`, but the response does not carry `ignored` — it is the bare
`{success: false}`, distinguishable neither by an `ignored` flag nor by an
`error` field. -/
theorem suspend_ineligible_counterexample :
    eligibleForSuspend exPinnedState.currentSettings
        (exPinnedState.browser.getTab 1) "manual" = false
    ∧ (suspendTab exPinnedState 0 false 1 "manual").2.ignored = none
    ∧ (suspendTab exPinnedState 0 false 1 "manual").2 = { success := false } := by
  decide

-- ---------------------------------------------------------------------------
-- C8: unsuspend deletes and persists before navigating; no rollback
-- ---------------------------------------------------------------------------

/-- C8: for a tab id with a registry record, `unsuspendTab` deletes the
record and persists the deletion before attempting navigation; when the
navigation call throws, the operation reports `{success: false, error}` while
the record stays deleted (in cache and in storage) and the browser is
untouched. -/
theorem unsuspend_deletion_survives_failure (st : SysState) (tabId : Nat)
    (rec : TabRecord) (h : alistLookup st.suspendedTabsCache tabId = some rec) :
    (unsuspendTab st true tabId).2.success = false
    ∧ (unsuspendTab st true tabId).2.error.isSome = true
    ∧ alistLookup (unsuspendTab st true tabId).1.suspendedTabsCache tabId = none
    ∧ alistLookup (unsuspendTab st true tabId).1.persistedTabs tabId = none
    ∧ (unsuspendTab st true tabId).1.persistedTabs
        = (unsuspendTab st true tabId).1.suspendedTabsCache
    ∧ (unsuspendTab st true tabId).1.browser = st.browser := by
  unfold unsuspendTab
  rw [h]
  simp [alistLookup_erase_self]

/-- Witness for C8: a concrete failing restore keeps the record deleted. -/
theorem unsuspend_deletion_survives_failure_witness :
    (unsuspendTab exSuspendedState true 1).2.success = false
    ∧ (unsuspendTab exSuspendedState true 1).2.error.isSome = true
    ∧ alistLookup (unsuspendTab exSuspendedState true 1).1.suspendedTabsCache 1 = none
    ∧ alistLookup (unsuspendTab exSuspendedState true 1).1.persistedTabs 1 = none
    ∧ (unsuspendTab exSuspendedState true 1).1.persistedTabs
        = (unsuspendTab exSuspendedState true 1).1.suspendedTabsCache
    ∧ (unsuspendTab exSuspendedState true 1).1.browser = exSuspendedState.browser :=
  unsuspend_deletion_survives_failure exSuspendedState 1 exRecord (by decide)

-- ---------------------------------------------------------------------------
-- C1: suspending an already-suspended tab
-- ---------------------------------------------------------------------------

/-- Amended C1: after a successful suspend, a second `suspendTab` on the
already-suspended tab id performs no additional mutation, but it does NOT
return `already: true`: the eligibility check runs before the
already-suspended checks and already rejects the placeholder page (a
non-http URL), so the second call returns the bare `{success: false}`; under
the replace strategy a second call on the original id fails with an error
because that tab no longer exists. -/
theorem suspend_second_call_not_already (st : SysState) (now now2 : Int)
    (cf2 : Bool) (tabId : Nat) (reason reason2 : String)
    (hwf : BrowserWf st.browser) :
    ((suspendTab st now true tabId reason).2.success = true →
      suspendTab (suspendTab st now true tabId reason).1 now2 cf2 tabId reason2
        = ((suspendTab st now true tabId reason).1, { success := false }))
    ∧ ((suspendTab st now false tabId reason).2.success = true →
      suspendTab (suspendTab st now false tabId reason).1 now2 cf2
          st.browser.nextTabId reason2
        = ((suspendTab st now false tabId reason).1, { success := false }))
    ∧ ((suspendTab st now false tabId reason).2.success = true →
      suspendTab (suspendTab st now false tabId reason).1 now2 cf2 tabId reason2
        = ((suspendTab st now false tabId reason).1,
            { success := false, error := some "No tab with id" })) := by
  refine ⟨?_, ?_, ?_⟩
  · intro hs
    obtain ⟨tab, h1, heq⟩ := suspendTab_navigate_success_state st now tabId reason hs
    rw [heq]
    have h2 := getTab_updateTab_self st.browser tabId
      (some (getSuspendedUrl tab.url tab.title)) none none tab h1
    simp only [Option.getD] at h2
    have hel : eligibleForSuspend st.currentSettings
        (some { tab with url := getSuspendedUrl tab.url tab.title }) reason2
          = false :=
      eligible_suspended_url_false _ _ _ tab.url tab.title rfl
    simp [suspendTab, h2, hel]
  · intro hs
    obtain ⟨tab, h1, heq⟩ := suspendTab_replace_success_state st now tabId reason hs
    rw [heq]
    have h2 := getTab_replace_new st.browser tabId tab tab.windowId
      (tab.index + 1) tab.index tab.active tab.pinned
      (getSuspendedUrl tab.url tab.title) hwf h1
    have hel : eligibleForSuspend st.currentSettings
        (some { id := st.browser.nextTabId,
                url := getSuspendedUrl tab.url tab.title, title := "",
                favIconUrl := none, windowId := tab.windowId,
                index := tab.index, pinned := tab.pinned, active := tab.active,
                audible := false, groupId := -1, lastAccessed := none })
          reason2 = false :=
      eligible_suspended_url_false _ _ _ tab.url tab.title rfl
    simp [suspendTab, h2, hel]
  · intro hs
    obtain ⟨tab, h1, heq⟩ := suspendTab_replace_success_state st now tabId reason hs
    rw [heq]
    have h2 := getTab_removeTab_self
      ((st.browser.createTab tab.windowId (tab.index + 1) tab.active tab.pinned
          (getSuspendedUrl tab.url tab.title)).1.moveTab
        (st.browser.createTab tab.windowId (tab.index + 1) tab.active tab.pinned
          (getSuspendedUrl tab.url tab.title)).2.id tab.index) tabId
    simp [suspendTab, h2]

/-- Witness for amended C1: the concrete second call after an in-place
(navigate) suspend. -/
theorem suspend_second_call_not_already_witness :
    suspendTab (suspendTab exState 1000 true 1 "manual").1 2000 true 1 "manual"
      = ((suspendTab exState 1000 true 1 "manual").1, { success := false }) :=
  (suspend_second_call_not_already exState 1000 2000 true 1 "manual" "manual"
    (by decide)).1 (by decide)

/-- Counterexample to C1 as stated: both under the navigate fallback (second
call on the same id) and under the replace strategy (second call on the
placeholder id), the second response carries no `already` flag — it is the
bare `{success: false}`. -/
theorem suspend_twice_counterexample :
    (suspendTab exState 1000 true 1 "manual").2.success = true
    ∧ (suspendTab (suspendTab exState 1000 true 1 "manual").1
        2000 true 1 "manual").2.already = none
    ∧ (suspendTab (suspendTab exState 1000 true 1 "manual").1
        2000 true 1 "manual").2 = { success := false }
    ∧ (suspendTab exState 1000 false 1 "manual").2.success = true
    ∧ (suspendTab (suspendTab exState 1000 false 1 "manual").1
        2000 false 2 "manual").2.already = none
    ∧ (suspendTab (suspendTab exState 1000 false 1 "manual").1
        2000 false 2 "manual").2 = { success := false } := by
  decide

-- ---------------------------------------------------------------------------
-- C3: suspend/unsuspend round trip
-- ---------------------------------------------------------------------------

/-- C3: whenever `suspendTab` returns `{success: true}`, unsuspending the
resulting tab id (the placeholder id under replace, the original id under
navigate) returns `{success: true}` without error and navigates that tab to
the original URL recorded at suspension time. -/
theorem suspend_unsuspend_round_trip (st : SysState) (now : Int) (cf : Bool)
    (tabId : Nat) (reason : String) (tab : Tab)
    (hwf : BrowserWf st.browser)
    (htab : st.browser.getTab tabId = some tab)
    (hs : (suspendTab st now cf tabId reason).2.success = true) :
    (unsuspendTab (suspendTab st now cf tabId reason).1 false
        (resultingTabId st cf tabId)).2.success = true
    ∧ (unsuspendTab (suspendTab st now cf tabId reason).1 false
        (resultingTabId st cf tabId)).2.error = none
    ∧ ((unsuspendTab (suspendTab st now cf tabId reason).1 false
        (resultingTabId st cf tabId)).1.browser.getTab
          (resultingTabId st cf tabId)).map Tab.url = some tab.url := by
  cases cf with
  | true =>
    obtain ⟨tab2, h1, heq⟩ := suspendTab_navigate_success_state st now tabId reason hs
    rw [htab] at h1
    obtain rfl : tab = tab2 := by injection h1
    rw [heq]
    have h2 := getTab_updateTab_self st.browser tabId
      (some (getSuspendedUrl tab.url tab.title)) none none tab htab
    simp only [Option.getD] at h2
    have h3 := getTab_updateTab_self
      (st.browser.updateTab tabId (some (getSuspendedUrl tab.url tab.title)) none none)
      tabId (some tab.url) none none _ h2
    simp only [Option.getD] at h3
    simp [unsuspendTab, resultingTabId, alistLookup_insert_self, h2, h3, mkBaseRecord]
  | false =>
    obtain ⟨tab2, h1, heq⟩ := suspendTab_replace_success_state st now tabId reason hs
    rw [htab] at h1
    obtain rfl : tab = tab2 := by injection h1
    rw [heq]
    have h2 := getTab_replace_new st.browser tabId tab tab.windowId
      (tab.index + 1) tab.index tab.active tab.pinned
      (getSuspendedUrl tab.url tab.title) hwf htab
    have h3 := getTab_updateTab_self _ st.browser.nextTabId
      (some tab.url) (some true) (some tab.pinned) _ h2
    simp only [Option.getD] at h3
    simp [unsuspendTab, resultingTabId, alistLookup_insert_self, h2, h3, mkBaseRecord]

/-- Witness for C3: concrete round trips under both strategies. -/
theorem suspend_unsuspend_round_trip_witness :
    ((unsuspendTab (suspendTab exState 1000 false 1 "manual").1 false
        (resultingTabId exState false 1)).2.success = true
      ∧ (unsuspendTab (suspendTab exState 1000 false 1 "manual").1 false
          (resultingTabId exState false 1)).2.error = none
      ∧ ((unsuspendTab (suspendTab exState 1000 false 1 "manual").1 false
          (resultingTabId exState false 1)).1.browser.getTab
            (resultingTabId exState false 1)).map Tab.url = some exTab.url)
    ∧ ((unsuspendTab (suspendTab exState 1000 true 1 "manual").1 false
        (resultingTabId exState true 1)).2.success = true
      ∧ (unsuspendTab (suspendTab exState 1000 true 1 "manual").1 false
          (resultingTabId exState true 1)).2.error = none
      ∧ ((unsuspendTab (suspendTab exState 1000 true 1 "manual").1 false
          (resultingTabId exState true 1)).1.browser.getTab
            (resultingTabId exState true 1)).map Tab.url = some exTab.url) :=
  ⟨suspend_unsuspend_round_trip exState 1000 false 1 "manual" exTab
      (by decide) (by decide) (by decide),
   suspend_unsuspend_round_trip exState 1000 true 1 "manual" exTab
      (by decide) (by decide) (by decide)⟩

-- ---------------------------------------------------------------------------
-- C4: registry no-orphan invariant
-- ---------------------------------------------------------------------------

theorem registry_lookup_unique : ∀ (r : List (Nat × TabRecord)), RegistryWf r →
    ∀ (k : Nat) (rec : TabRecord), alistLookup r k = some rec →
    r.filter (fun p => p.1 == k) = [(k, rec)] := by
  intro r
  induction r with
  | nil => intro _ k rec h; simp [alistLookup] at h
  | cons p r ih =>
    intro hwf k rec h
    obtain ⟨k0, v⟩ := p
    have hwf2 : RegistryWf r := by
      have := hwf
      unfold RegistryWf at this ⊢
      simpa using (List.nodup_cons.mp (by simpa using this)).2
    by_cases hk : (k0 == k) = true
    · have hk0 : k0 = k := by simpa using hk
      have hrec : v = rec := by
        simpa [alistLookup, List.find?_cons, hk] using h
      have hnotin : k0 ∉ r.map Prod.fst := by
        have := hwf
        unfold RegistryWf at this
        exact (List.nodup_cons.mp (by simpa using this)).1
      have hfilter : r.filter (fun p => p.1 == k) = [] := by
        rw [List.filter_eq_nil_iff]
        intro q hq hqk
        exact hnotin (hk0 ▸ (by simpa using hqk) ▸ List.mem_map_of_mem Prod.fst hq)
      simp [List.filter_cons, hk, hfilter, hk0, hrec]
    · have h2 : alistLookup r k = some rec := by
        simpa [alistLookup, List.find?_cons, hk] using h
      simpa [List.filter_cons, hk] using ih hwf2 k rec h2

/-- C4: the registry holds exactly one record per present key (given the
JS-object key uniqueness the operations preserve), and removing a tab — by
closing it (`onRemoved`) or by the placeholder navigating away from the
suspended page (`onUpdated`) — deletes its record and its activity-map
entry, so a subsequent `getSuspendedTabData` for that id answers none. -/
theorem registry_no_orphans :
    (∀ (st : SysState) (tabId : Nat),
        getSuspendedTabData (handleTabRemoved st tabId) (some tabId) = none)
    ∧ (∀ (st : SysState) (tabId : Nat),
        alistLookup (handleTabRemoved st tabId).lastActivityMap tabId = none)
    ∧ (∀ (st : SysState) (tabId : Nat) (u : String),
        isExtensionSuspendedPage u = false →
        getSuspendedTabData (handleTabUpdated st tabId (some u)) (some tabId) = none)
    ∧ (∀ (r : List (Nat × TabRecord)), RegistryWf r →
        ∀ (k : Nat) (rec : TabRecord), alistLookup r k = some rec →
        r.filter (fun p => p.1 == k) = [(k, rec)])
    ∧ (∀ (st : SysState) (now : Int) (cf : Bool) (tabId : Nat) (reason : String),
        RegistryWf st.suspendedTabsCache →
        RegistryWf (suspendTab st now cf tabId reason).1.suspendedTabsCache)
    ∧ (∀ (st : SysState) (uf : Bool) (tabId : Nat),
        RegistryWf st.suspendedTabsCache →
        RegistryWf (unsuspendTab st uf tabId).1.suspendedTabsCache)
    ∧ (∀ (st : SysState) (tabId : Nat),
        RegistryWf st.suspendedTabsCache →
        RegistryWf (handleTabRemoved st tabId).suspendedTabsCache)
    ∧ (∀ (st : SysState) (tabId : Nat) (cu : Option String),
        RegistryWf st.suspendedTabsCache →
        RegistryWf (handleTabUpdated st tabId cu).suspendedTabsCache) := by
  refine ⟨?_, ?_, ?_, registry_lookup_unique, ?_, ?_, ?_, ?_⟩
  · intro st tabId
    cases hx : alistLookup st.suspendedTabsCache tabId with
    | some rec =>
      simp [handleTabRemoved, getSuspendedTabData, hx, alistLookup_erase_self]
    | none => simp [handleTabRemoved, getSuspendedTabData, hx]
  · intro st tabId
    cases hx : alistLookup st.suspendedTabsCache tabId with
    | some rec => simp [handleTabRemoved, hx, alistLookup_erase_self]
    | none => simp [handleTabRemoved, hx, alistLookup_erase_self]
  · intro st tabId u hu
    cases hx : alistLookup st.suspendedTabsCache tabId with
    | some rec =>
      simp [handleTabUpdated, getSuspendedTabData, hx, hu, alistLookup_erase_self]
    | none => simp [handleTabUpdated, getSuspendedTabData, hx, hu]
  · intro st now cf tabId reason h
    unfold suspendTab
    split
    · exact h
    · split
      · exact h
      · split
        · exact h
        · split
          · exact h
          · split
            · exact alistInsert_keys_nodup _ _ _ h
            · exact alistInsert_keys_nodup _ _ _ h
  · intro st uf tabId h
    cases hx : alistLookup st.suspendedTabsCache tabId with
    | none => simp [unsuspendTab, hx, h]
    | some rec =>
      by_cases ht : (uf || (st.browser.getTab tabId).isNone) = true
      · simp [unsuspendTab, hx, ht, alistErase_keys_nodup _ _ h]
      · rw [Bool.not_eq_true] at ht
        by_cases hstrat : (rec.strategy == "replace") = true
        · simp [unsuspendTab, hx, ht, hstrat, alistErase_keys_nodup _ _ h]
        · rw [Bool.not_eq_true] at hstrat
          simp [unsuspendTab, hx, ht, hstrat, alistErase_keys_nodup _ _ h]
  · intro st tabId h
    unfold handleTabRemoved
    split
    · exact alistErase_keys_nodup _ _ h
    · exact h
  · intro st tabId cu h
    unfold handleTabUpdated
    split
    · exact h
    · split
      · exact alistErase_keys_nodup _ _ h
      · exact h

/-- Witness for C4: closing the suspended tab of `exSuspendedState` clears
its record, and the uniqueness reading at its concrete registry. -/
theorem registry_no_orphans_witness :
    getSuspendedTabData (handleTabRemoved exSuspendedState 1) (some 1) = none
    ∧ [(1, exRecord)].filter (fun p => p.1 == 1) = [(1, exRecord)] :=
  ⟨registry_no_orphans.1 exSuspendedState 1,
   registry_no_orphans.2.2.2.1 [(1, exRecord)] (by decide) 1 exRecord (by decide)⟩

-- ---------------------------------------------------------------------------
-- C9: loadSettings validates autoSuspendTime
-- ---------------------------------------------------------------------------

/-- C9: for every stored settings object whose `autoSuspendTime` is missing,
non-numeric, or not positive, `loadSettings` substitutes the default value 30
in the returned settings rather than using the invalid value. -/
theorem loadSettings_invalid_time_defaults (stored : StoredSettings)
    (h : validStoredTime stored.autoSuspendTime = false) :
    (loadSettings (some stored)).autoSuspendTime = 30 := by
  cases hv : stored.autoSuspendTime with
  | none => simp [loadSettings, hv, DEFAULT_SETTINGS]
  | some v =>
    cases v with
    | notNum => simp [loadSettings, hv, DEFAULT_SETTINGS]
    | num n =>
      rw [hv] at h
      simp [validStoredTime] at h
      simp [loadSettings, hv, DEFAULT_SETTINGS]
      omega

/-- Witness for C9: the invalid stored value `-5` is replaced by 30. -/
theorem loadSettings_invalid_time_defaults_witness :
    (loadSettings (some
      { autoSuspend := none, autoSuspendTime := some (StoredNum.num (-5)),
        ignorePinned := none, ignoreAudio := none, ignoreActive := none,
        urlWhitelist := none })).autoSuspendTime = 30 :=
  loadSettings_invalid_time_defaults _ (by decide)

-- ---------------------------------------------------------------------------
-- C10: saveSettings merges and persists verbatim, without validation
-- ---------------------------------------------------------------------------

/-- C10: `saveSettings` merges the partial update field-wise into the current
settings and persists the merged object verbatim, with no field validation:
saving `{autoSuspendTime: -5}` leaves `-5` as the live threshold (the value
`runInactivityScan` turns into `thresholdMs`), and only a later
`loadSettings` of the persisted object re-applies the default 30. -/
theorem saveSettings_no_validation :
    (∀ (st : SettingsStore) (p : SettingsPartial),
      (saveSettings st p).1.currentSettings.autoSuspend
          = p.autoSuspend.getD st.currentSettings.autoSuspend
      ∧ (saveSettings st p).1.currentSettings.autoSuspendTime
          = p.autoSuspendTime.getD st.currentSettings.autoSuspendTime
      ∧ (saveSettings st p).1.currentSettings.ignorePinned
          = p.ignorePinned.getD st.currentSettings.ignorePinned
      ∧ (saveSettings st p).1.currentSettings.ignoreAudio
          = p.ignoreAudio.getD st.currentSettings.ignoreAudio
      ∧ (saveSettings st p).1.currentSettings.ignoreActive
          = p.ignoreActive.getD st.currentSettings.ignoreActive
      ∧ (saveSettings st p).1.currentSettings.urlWhitelist
          = p.urlWhitelist.getD st.currentSettings.urlWhitelist
      ∧ (saveSettings st p).1.persistedSettings
          = some (saveSettings st p).1.currentSettings
      ∧ (saveSettings st p).2 = true)
    ∧ (∀ st : SettingsStore,
      (saveSettings st { autoSuspendTime := some (-5) }).1.currentSettings.autoSuspendTime
          = -5
      ∧ scanThresholdMs
          (saveSettings st { autoSuspendTime := some (-5) }).1.currentSettings
          = -300000)
    ∧ (∀ s : Settings, s.autoSuspendTime = -5 →
      (loadSettings (some (settingsToStored s))).autoSuspendTime = 30) := by
  refine ⟨?_, ?_, ?_⟩
  · intro st p
    simp [saveSettings, mergeNewSettings]
  · intro st
    simp [saveSettings, mergeNewSettings, scanThresholdMs]
  · intro s hs
    simp [loadSettings, settingsToStored, hs, DEFAULT_SETTINGS]

/-- Witness for C10: a concrete save of `{autoSuspendTime: -5}` keeps `-5`
live, and the next load restores 30. -/
theorem saveSettings_no_validation_witness :
    ((saveSettings { currentSettings := DEFAULT_SETTINGS, persistedSettings := none }
        { autoSuspendTime := some (-5) }).1.currentSettings.autoSuspendTime = -5
      ∧ scanThresholdMs (saveSettings
          { currentSettings := DEFAULT_SETTINGS, persistedSettings := none }
          { autoSuspendTime := some (-5) }).1.currentSettings = -300000)
    ∧ (loadSettings (some (settingsToStored
        { DEFAULT_SETTINGS with autoSuspendTime := -5 }))).autoSuspendTime = 30 :=
  ⟨saveSettings_no_validation.2.1 _,
   saveSettings_no_validation.2.2 { DEFAULT_SETTINGS with autoSuspendTime := -5 } rfl⟩

-- ---------------------------------------------------------------------------
-- C5: the scheduler guard coalesces concurrent triggers
-- ---------------------------------------------------------------------------

theorem scanTriggers_running (n : Nat) :
    scanTriggers n { scanRunning := true, scanRerunRequested := true }
      = ({ scanRunning := true, scanRerunRequested := true }, 0) := by
  induction n with
  | zero => rfl
  | succ m ih => simp [scanTriggers, scanEnter, ih]

/-- C5: while a scan is in flight (`scanRunning = true`), any number `n ≥ 1`
of further `runInactivityScan` calls starts no scan body — each only sets
`scanRerunRequested` and returns — and when the running scan completes, its
`finally` block starts exactly one follow-up scan, leaving the flags as for a
single freshly started scan. -/
theorem scheduler_coalesces_triggers (n : Nat) (h : 0 < n) :
    (scanTriggers n { scanRunning := true, scanRerunRequested := false }).2 = 0
    ∧ (scanTriggers n { scanRunning := true, scanRerunRequested := false }).1
        = { scanRunning := true, scanRerunRequested := true }
    ∧ scanExit
        (scanTriggers n { scanRunning := true, scanRerunRequested := false }).1
        = ({ scanRunning := true, scanRerunRequested := false }, true) := by
  obtain ⟨m, rfl⟩ : ∃ m, n = m + 1 := ⟨n - 1, by omega⟩
  have hstep :
      scanTriggers (m + 1) { scanRunning := true, scanRerunRequested := false }
        = ({ scanRunning := true, scanRerunRequested := true }, 0) := by
    simp [scanTriggers, scanEnter, scanTriggers_running]
  refine ⟨by simp [hstep], by simp [hstep], ?_⟩
  simp [hstep, scanExit]

/-- Witness for C5: five triggers arriving during one scan are coalesced into
exactly one follow-up. -/
theorem scheduler_coalesces_triggers_witness :
    (scanTriggers 5 { scanRunning := true, scanRerunRequested := false }).2 = 0
    ∧ (scanTriggers 5 { scanRunning := true, scanRerunRequested := false }).1
        = { scanRunning := true, scanRerunRequested := true }
    ∧ scanExit
        (scanTriggers 5 { scanRunning := true, scanRerunRequested := false }).1
        = ({ scanRunning := true, scanRerunRequested := false }, true) :=
  scheduler_coalesces_triggers 5 (by decide)

end SmartSuspender
